import Mathlib

/-!
Shallow embedding of `setup_biblioteca.py`, a MongoDB provisioning script for
a library database.  Documents are flat association lists of BSON-like values;
the four collections, their `$jsonSchema` validators, the declared indexes,
ordered `insert_many` semantics with unique-index enforcement, the validation
aggregation (`$lookup`/`$unwind`/`$project`), the JSON exporter's value
conversion, and the top-level pipeline `run_complete_setup` are all modelled
from the source.  Driver-level failures (network, permissions) are injected
through an environment `env : Op → Bool` saying which driver calls raise.
-/

/-- Generated document identifiers (`ObjectId`), modelled as a counter value. -/
abbrev OId := Nat

/-- The canonical string form of a generated identifier (`str(ObjectId)`). -/
def oidString (o : OId) : String := String.append "oid" (toString o)

/-- Datetimes: either a calendar date `datetime(y, m, d)` or a value computed
relative to the current wall clock, `datetime.now() + timedelta(days = k)`. -/
inductive DateTime where
  | ymd (y m d : Nat)
  | nowPlusDays (k : Int)
deriving DecidableEq, Repr

/-- The textual timestamp produced by `datetime.isoformat()`. -/
def isoString : DateTime → String
  | .ymd y m d => String.append (toString y) (String.append "-" (String.append (toString m) (String.append "-" (toString d))))
  | .nowPlusDays k => String.append "now" (toString k)

/-- BSON values occurring in this program's documents (all documents are flat). -/
inductive Value where
  | vStr (s : String)
  | vInt (n : Int)
  | vBool (b : Bool)
  | vDate (d : DateTime)
  | vOid (o : OId)
  | vNull
deriving DecidableEq, Repr

/-- A document: an association list from field names to values. -/
abbrev Doc := List (String × Value)

/-- Field lookup in a document. -/
def Doc.get (d : Doc) (k : String) : Option Value :=
  (d.find? (fun p => p.1 == k)).map (fun p => p.2)

/-- A character matching the regex class `[0-9-]`. -/
def isbnChar (c : Char) : Bool := c.isDigit || c == '-'

/-- The `isbn` schema pattern `^[0-9-]{10,17}$`: only digits and hyphens, with
total length between 10 and 17. -/
def isbnPattern (s : String) : Bool :=
  decide (10 ≤ s.length) && decide (s.length ≤ 17) && s.toList.all isbnChar

/-- A character matching the regex class `[\w\.-]`. -/
def wordDotDash (c : Char) : Bool := c.isAlpha || c.isDigit || c == '_' || c == '.' || c == '-'

/-- All ways to split a list into a prefix and a suffix. -/
def splitsOf (l : List Char) : List (List Char × List Char) :=
  (List.range (l.length + 1)).map (fun i => (l.take i, l.drop i))

/-- The `email` schema pattern `^[\w\.-]+@[\w\.-]+\.[a-zA-Z]{2,}$`. -/
def emailPattern (s : String) : Bool :=
  (splitsOf s.toList).any (fun p =>
    !p.1.isEmpty && p.1.all wordDotDash &&
    match p.2 with
    | '@' :: rest =>
        (splitsOf rest).any (fun q =>
          !q.1.isEmpty && q.1.all wordDotDash &&
          match q.2 with
          | '.' :: tld => decide (2 ≤ tld.length) && tld.all Char.isAlpha
          | _ => false)
    | _ => false)

/-- `bsonType: "string"` with an optional `minLength` bound. -/
def isStrMin (n : Nat) : Value → Bool
  | .vStr s => decide (n ≤ s.length)
  | _ => false

/-- `bsonType: "string"` with a pattern constraint. -/
def isStrPat (pat : String → Bool) : Value → Bool
  | .vStr s => pat s
  | _ => false

/-- `bsonType: "string"` with `minLength` and `maxLength` bounds. -/
def isStrLenBetween (lo hi : Nat) : Value → Bool
  | .vStr s => decide (lo ≤ s.length) && decide (s.length ≤ hi)
  | _ => false

/-- `bsonType: "string"` unconstrained. -/
def isStr : Value → Bool
  | .vStr _ => true
  | _ => false

/-- `bsonType: "int"` with `minimum`/`maximum` bounds. -/
def isIntBetween (lo hi : Int) : Value → Bool
  | .vInt n => decide (lo ≤ n) && decide (n ≤ hi)
  | _ => false

/-- `bsonType: "int"` with a `minimum` bound only. -/
def isIntMin (lo : Int) : Value → Bool
  | .vInt n => decide (lo ≤ n)
  | _ => false

/-- `bsonType: "date"`. -/
def isDate : Value → Bool
  | .vDate _ => true
  | _ => false

/-- `bsonType: ["date", "null"]`. -/
def isDateOrNull : Value → Bool
  | .vDate _ => true
  | .vNull => true
  | _ => false

/-- `bsonType: "objectId"`. -/
def isOid : Value → Bool
  | .vOid _ => true
  | _ => false

/-- `bsonType: "bool"`. -/
def isBool : Value → Bool
  | .vBool _ => true
  | _ => false

/-- `enum: [...]` over string values. -/
def isEnum (vs : List String) : Value → Bool
  | .vStr s => vs.contains s
  | _ => false

/-- A `required` field: the document must contain it. -/
def hasField (d : Doc) (k : String) : Bool := (d.get k).isSome

/-- A `properties` entry: the constraint applies only when the field is present. -/
def propOk (d : Doc) (k : String) (chk : Value → Bool) : Bool :=
  match d.get k with
  | none => true
  | some v => chk v

/-- The `$jsonSchema` validator of the `autori` collection. -/
def autoriValidator (d : Doc) : Bool :=
  hasField d "nome" && hasField d "cognome" && hasField d "data_nascita" &&
  propOk d "nome" (isStrMin 1) &&
  propOk d "cognome" (isStrMin 1) &&
  propOk d "data_nascita" isDate &&
  propOk d "data_morte" isDateOrNull &&
  propOk d "nazionalita" isStr &&
  propOk d "biografia" isStr

/-- The `$jsonSchema` validator of the `libri` collection. -/
def libriValidator (d : Doc) : Bool :=
  hasField d "titolo" && hasField d "autore_id" && hasField d "isbn" &&
  hasField d "anno_pubblicazione" && hasField d "copie_disponibili" &&
  propOk d "titolo" (isStrMin 1) &&
  propOk d "autore_id" isOid &&
  propOk d "isbn" (isStrPat isbnPattern) &&
  propOk d "anno_pubblicazione" (isIntBetween 1000 2030) &&
  propOk d "genere" isStr &&
  propOk d "editore" isStr &&
  propOk d "pagine" (isIntMin 1) &&
  propOk d "copie_totali" (isIntMin 1) &&
  propOk d "copie_disponibili" (isIntMin 0) &&
  propOk d "descrizione" isStr

/-- The `$jsonSchema` validator of the `utenti` collection. -/
def utentiValidator (d : Doc) : Bool :=
  hasField d "nome" && hasField d "cognome" && hasField d "email" &&
  hasField d "codice_fiscale" && hasField d "data_registrazione" &&
  propOk d "nome" (isStrMin 1) &&
  propOk d "cognome" (isStrMin 1) &&
  propOk d "email" (isStrPat emailPattern) &&
  propOk d "codice_fiscale" (isStrLenBetween 16 16) &&
  propOk d "telefono" isStr &&
  propOk d "data_registrazione" isDate &&
  propOk d "attivo" isBool

/-- The `$jsonSchema` validator of the `prestiti` collection. -/
def prestitiValidator (d : Doc) : Bool :=
  hasField d "libro_id" && hasField d "utente_id" && hasField d "data_prestito" &&
  hasField d "data_scadenza" && hasField d "utente_nome" && hasField d "utente_email" &&
  propOk d "libro_id" isOid &&
  propOk d "utente_id" isOid &&
  propOk d "data_prestito" isDate &&
  propOk d "data_scadenza" isDate &&
  propOk d "data_restituzione" isDateOrNull &&
  propOk d "utente_nome" isStr &&
  propOk d "utente_email" isStr &&
  propOk d "note" isStr &&
  propOk d "stato" (isEnum ["attivo", "restituito", "scaduto"])

/-- Which schema validator is attached to each collection at creation. -/
def validatorFor (c : String) : Doc → Bool :=
  if c = "autori" then autoriValidator
  else if c = "libri" then libriValidator
  else if c = "utenti" then utentiValidator
  else if c = "prestiti" then prestitiValidator
  else fun _ => true

/-- Sort direction of an index key (ASCENDING / DESCENDING). -/
inductive Dir where
  | asc
  | desc
deriving DecidableEq, Repr

/-- A secondary-index declaration: collection, key fields with direction,
uniqueness flag. -/
structure IndexSpec where
  coll : String
  keys : List (String × Dir)
  unique : Bool
deriving DecidableEq, Repr

/-- All indexes declared by `create_indexes`, in program order. -/
def indexList : List IndexSpec :=
  [ ⟨"autori", [("nome", .asc), ("cognome", .asc)], false⟩,
    ⟨"autori", [("cognome", .asc)], false⟩,
    ⟨"libri", [("autore_id", .asc)], false⟩,
    ⟨"libri", [("isbn", .asc)], true⟩,
    ⟨"libri", [("titolo", .asc)], false⟩,
    ⟨"libri", [("genere", .asc)], false⟩,
    ⟨"utenti", [("email", .asc)], true⟩,
    ⟨"utenti", [("codice_fiscale", .asc)], true⟩,
    ⟨"utenti", [("cognome", .asc)], false⟩,
    ⟨"prestiti", [("utente_id", .asc)], false⟩,
    ⟨"prestiti", [("libro_id", .asc)], false⟩,
    ⟨"prestiti", [("data_prestito", .desc)], false⟩,
    ⟨"prestiti", [("data_scadenza", .asc)], false⟩,
    ⟨"prestiti", [("stato", .asc)], false⟩ ]

/-- The database state: which collections exist, which carry their schema
validator, which indexes exist, the documents of the four collections, and the
next generated identifier. -/
structure DB where
  created : List String
  validated : List String
  indexes : List IndexSpec
  autori : List Doc
  libri : List Doc
  utenti : List Doc
  prestiti : List Doc
  nextId : OId
deriving DecidableEq, Repr

/-- The empty database (before any setup run). -/
def DB.empty : DB := ⟨[], [], [], [], [], [], [], 0⟩

/-- Documents of a collection, by name. -/
def DB.docs (db : DB) (c : String) : List Doc :=
  if c = "autori" then db.autori
  else if c = "libri" then db.libri
  else if c = "utenti" then db.utenti
  else if c = "prestiti" then db.prestiti
  else []

/-- Replace the documents of a collection, by name. -/
def DB.setDocs (db : DB) (c : String) (ds : List Doc) : DB :=
  if c = "autori" then { db with autori := ds }
  else if c = "libri" then { db with libri := ds }
  else if c = "utenti" then { db with utenti := ds }
  else if c = "prestiti" then { db with prestiti := ds }
  else db

/-- Error outcomes of a single document insert. -/
inductive InsErr where
  | validation
  | duplicateKey
deriving DecidableEq, Repr

/-- Two documents collide on a unique index when they agree on every key field
(an absent field reads as a null key, as in MongoDB). -/
def keyConflict (idx : IndexSpec) (d e : Doc) : Bool :=
  idx.keys.all (fun k => d.get k.1 == e.get k.1)

/-- Does inserting `d` into collection `c` violate some unique index of `db`? -/
def uniqueViolation (db : DB) (c : String) (d : Doc) : Bool :=
  db.indexes.any (fun idx =>
    idx.coll == c && idx.unique && (db.docs c).any (fun e => keyConflict idx d e))

/-- Insert one document: schema validation (when the collection was created
with a validator), then unique-index enforcement, then append with a fresh
generated `_id`. -/
def insertOne (db : DB) (c : String) (d : Doc) : Except InsErr (DB × OId) :=
  if db.validated.contains c && !(validatorFor c d) then .error .validation
  else if uniqueViolation db c d then .error .duplicateKey
  else
    let d2 : Doc := ("_id", Value.vOid db.nextId) :: d
    .ok ({ (db.setDocs c ((db.docs c).append [d2])) with nextId := db.nextId + 1 }, db.nextId)

/-- `insert_many` with pymongo's default ordered semantics: documents are
inserted one at a time; the first failure aborts the batch and raises, but
documents inserted before the failure remain in the store.  Returns the
updated state and either the captured ids or the error. -/
def insertMany (db : DB) (c : String) : List Doc → DB × Except InsErr (List OId)
  | [] => (db, .ok [])
  | d :: ds =>
    match insertOne db c d with
    | .error e => (db, .error e)
    | .ok (db2, i) =>
      match insertMany db2 c ds with
      | (db3, .ok is) => (db3, .ok (i :: is))
      | (db3, .error e) => (db3, .error e)

/-- The fixed batch of 3 author documents (`autori_data`). -/
def autoriData : List Doc :=
  [ [ ("nome", .vStr "Alessandro"), ("cognome", .vStr "Manzoni"),
      ("data_nascita", .vDate (.ymd 1785 3 7)), ("data_morte", .vDate (.ymd 1873 5 22)),
      ("nazionalita", .vStr "Italiana"),
      ("biografia", .vStr "Scrittore e poeta italiano del romanticismo") ],
    [ ("nome", .vStr "Italo"), ("cognome", .vStr "Calvino"),
      ("data_nascita", .vDate (.ymd 1923 10 15)), ("data_morte", .vDate (.ymd 1985 9 19)),
      ("nazionalita", .vStr "Italiana"),
      ("biografia", .vStr "Scrittore e giornalista italiano") ],
    [ ("nome", .vStr "Umberto"), ("cognome", .vStr "Eco"),
      ("data_nascita", .vDate (.ymd 1932 1 5)), ("data_morte", .vDate (.ymd 2016 2 19)),
      ("nazionalita", .vStr "Italiana"),
      ("biografia", .vStr "Scrittore, filosofo e semiologo italiano") ] ]

/-- The fixed batch of 3 book documents (`libri_data`), wired to the captured
author ids (`autori_ids[0..2]`; an out-of-range reference yields a null). -/
def libriData (autoriIds : List OId) : List Doc :=
  let ref : Nat → Value := fun i => match autoriIds.get? i with
    | some o => .vOid o
    | none => .vNull
  [ [ ("titolo", .vStr "I Promessi Sposi"), ("autore_id", ref 0),
      ("isbn", .vStr "978-88-17-12345-1"), ("anno_pubblicazione", .vInt 1827),
      ("genere", .vStr "Romanzo storico"), ("editore", .vStr "Feltrinelli"),
      ("pagine", .vInt 720), ("copie_totali", .vInt 5), ("copie_disponibili", .vInt 3),
      ("descrizione", .vStr "Capolavoro della letteratura italiana") ],
    [ ("titolo", .vStr "Il Barone Rampante"), ("autore_id", ref 1),
      ("isbn", .vStr "978-88-06-12345-2"), ("anno_pubblicazione", .vInt 1957),
      ("genere", .vStr "Narrativa"), ("editore", .vStr "Einaudi"),
      ("pagine", .vInt 280), ("copie_totali", .vInt 3), ("copie_disponibili", .vInt 2),
      ("descrizione", .vStr "Secondo romanzo della trilogia I nostri antenati") ],
    [ ("titolo", .vStr "Il Nome della Rosa"), ("autore_id", ref 2),
      ("isbn", .vStr "978-88-45-12345-3"), ("anno_pubblicazione", .vInt 1980),
      ("genere", .vStr "Giallo storico"), ("editore", .vStr "Bompiani"),
      ("pagine", .vInt 550), ("copie_totali", .vInt 4), ("copie_disponibili", .vInt 1),
      ("descrizione", .vStr "Romanzo giallo ambientato in un monastero medievale") ] ]

/-- The fixed batch of 3 patron documents (`utenti_data`). -/
def utentiData : List Doc :=
  [ [ ("nome", .vStr "Mario"), ("cognome", .vStr "Rossi"),
      ("email", .vStr "mario.rossi@email.com"),
      ("codice_fiscale", .vStr "RSSMRA80A01H501Z"), ("telefono", .vStr "+39 320 1234567"),
      ("data_registrazione", .vDate (.ymd 2023 1 15)), ("attivo", .vBool true) ],
    [ ("nome", .vStr "Giulia"), ("cognome", .vStr "Bianchi"),
      ("email", .vStr "giulia.bianchi@email.com"),
      ("codice_fiscale", .vStr "BNCGLI85B42F205X"), ("telefono", .vStr "+39 345 7890123"),
      ("data_registrazione", .vDate (.ymd 2023 3 22)), ("attivo", .vBool true) ],
    [ ("nome", .vStr "Luca"), ("cognome", .vStr "Verdi"),
      ("email", .vStr "luca.verdi@email.com"),
      ("codice_fiscale", .vStr "VRDLCU90C15G224Y"), ("telefono", .vStr "+39 366 4567890"),
      ("data_registrazione", .vDate (.ymd 2023 5 10)), ("attivo", .vBool true) ] ]

/-- The fixed batch of 2 loan documents (`prestiti_data`), wired to the
captured book and patron ids; loan dates are relative to the current wall
clock (`base_date = now - 30 days`). -/
def prestitiData (libriIds utentiIds : List OId) : List Doc :=
  let refL : Nat → Value := fun i => match libriIds.get? i with
    | some o => .vOid o
    | none => .vNull
  let refU : Nat → Value := fun i => match utentiIds.get? i with
    | some o => .vOid o
    | none => .vNull
  [ [ ("libro_id", refL 0), ("utente_id", refU 0),
      ("data_prestito", .vDate (.nowPlusDays (-30))),
      ("data_scadenza", .vDate (.nowPlusDays 0)),
      ("data_restituzione", .vDate (.nowPlusDays (-5))),
      ("utente_nome", .vStr "Mario Rossi"), ("utente_email", .vStr "mario.rossi@email.com"),
      ("stato", .vStr "restituito"), ("note", .vStr "Restituito in perfette condizioni") ],
    [ ("libro_id", refL 2), ("utente_id", refU 1),
      ("data_prestito", .vDate (.nowPlusDays (-10))),
      ("data_scadenza", .vDate (.nowPlusDays 20)),
      ("data_restituzione", .vNull),
      ("utente_nome", .vStr "Giulia Bianchi"), ("utente_email", .vStr "giulia.bianchi@email.com"),
      ("stato", .vStr "attivo"), ("note", .vStr "Prestito in corso") ] ]

/-- A driver call made by the setup script; the environment decides which of
these raise an external (network/permission) exception. -/
inductive Op where
  | dropDb
  | createColl (c : String)
  | createIdx (i : IndexSpec)
  | insert (c : String)
  | count (c : String)
  | aggregate
  | findAll (c : String)
  | writeFile (c : String)
  | makedirs
deriving DecidableEq, Repr

/-- The working state threaded through the pipeline: the database, the trace
of driver calls attempted so far, and the failures caught and reported as
warnings. -/
structure W where
  db : DB
  trace : List Op
  warns : List Op
deriving DecidableEq, Repr

/-- Record an attempted driver call. -/
def W.att (w : W) (o : Op) : W := { w with trace := w.trace.append [o] }

/-- Record a caught, reported failure. -/
def W.warn (w : W) (o : Op) : W := { w with warns := w.warns.append [o] }

/-- `drop_database`: wipes the database; an external failure is caught. -/
def dropStage (env : Op → Bool) (w : W) : W :=
  let w := w.att .dropDb
  if env .dropDb then w.warn .dropDb
  else { w with db := { DB.empty with nextId := w.db.nextId } }

/-- `create_collections`: create each of the four collections with its
validator, catching per-collection both external failures and the
already-exists error. -/
def create_collections (env : Op → Bool) (w : W) : W :=
  ["autori", "libri", "utenti", "prestiti"].foldl
    (fun w c =>
      let w := w.att (.createColl c)
      if env (.createColl c) then w.warn (.createColl c)
      else if w.db.created.contains c then w.warn (.createColl c)
      else { w with db := { w.db with created := w.db.created.append [c],
                                      validated := w.db.validated.append [c] } })
    w

/-- `create_indexes`: a single try block around all index creations, so the
first external failure is caught once and skips the remaining declarations;
re-creating an identical existing index is a no-op. -/
def create_indexes (env : Op → Bool) (w : W) : W :=
  let step : List IndexSpec → W → W := fun l w =>
    l.foldl (fun acc i => match acc with
      | (w, true) => (w, true)
      | (w, false) =>
        let w := w.att (.createIdx i)
        if env (.createIdx i) then (w.warn (.createIdx i), true)
        else if w.db.indexes.contains i then (w, false)
        else ({ w with db := { w.db with indexes := w.db.indexes.append [i] } }, false))
      (w, false) |>.1
  step indexList w

/-- `load_sample_data`: four ordered batch inserts, each in a try block whose
handler reports the failure and returns from the function, so a failing batch
skips every later batch. -/
def load_sample_data (env : Op → Bool) (w : W) : W :=
  let w := w.att (.insert "autori")
  if env (.insert "autori") then w.warn (.insert "autori")
  else
    match insertMany w.db "autori" autoriData with
    | (db, .error _) => { w with db := db }.warn (.insert "autori")
    | (db, .ok autoriIds) =>
      let w := { w with db := db }.att (.insert "libri")
      if env (.insert "libri") then w.warn (.insert "libri")
      else
        match insertMany w.db "libri" (libriData autoriIds) with
        | (db, .error _) => { w with db := db }.warn (.insert "libri")
        | (db, .ok libriIds) =>
          let w := { w with db := db }.att (.insert "utenti")
          if env (.insert "utenti") then w.warn (.insert "utenti")
          else
            match insertMany w.db "utenti" utentiData with
            | (db, .error _) => { w with db := db }.warn (.insert "utenti")
            | (db, .ok utentiIds) =>
              let w := { w with db := db }.att (.insert "prestiti")
              if env (.insert "prestiti") then w.warn (.insert "prestiti")
              else
                match insertMany w.db "prestiti" (prestitiData libriIds utentiIds) with
                | (db, .error _) => { w with db := db }.warn (.insert "prestiti")
                | (db, .ok _) => { w with db := db }

/-- The `$concat` of the author's first and last name in the `$project` stage
(missing or non-string operands make `$concat` yield null). -/
def concatName (a : Doc) : Value :=
  match a.get "nome", a.get "cognome" with
  | some (.vStr n), some (.vStr c) => .vStr (String.append n (String.append " " c))
  | _, _ => .vNull

/-- The `$project` applied to a book joined with one unwound author document. -/
def projectBook (b a : Doc) : Doc :=
  [ ("_id", (b.get "_id").getD .vNull),
    ("titolo", (b.get "titolo").getD .vNull),
    ("autore_nome", concatName a),
    ("copie_disponibili", (b.get "copie_disponibili").getD .vNull) ]

/-- The Validator's aggregation pipeline over `libri`: `$lookup` authors whose
`_id` equals the book's `autore_id`, `$unwind` the matches (dropping books
with no match), then `$project` title, combined author name and available
copies. -/
def libriConAutori (libri autori : List Doc) : List Doc :=
  libri.flatMap (fun b =>
    (autori.filter (fun a => a.get "_id" == b.get "autore_id")).map (projectBook b))

/-- `validate_setup`: the four per-collection counts are computed outside any
try block, so an external failure there propagates (fatal to the pipeline);
the aggregation runs inside a try block, so its failure is only a warning. -/
def validate_setup (env : Op → Bool) (w : W) :
    Except W (W × List (String × Nat) × Option (List Doc)) := do
  let mut w := w
  let mut counts : List (String × Nat) := []
  for c in ["autori", "libri", "utenti", "prestiti"] do
    w := w.att (.count c)
    if env (.count c) then
      throw w
    counts := counts.append [(c, (w.db.docs c).length)]
  w := w.att .aggregate
  if env .aggregate then
    return (w.warn .aggregate, counts, none)
  return (w, counts, some (libriConAutori w.db.libri w.db.autori))

/-- The Exporter's per-value conversion: generated identifiers become their
canonical strings, datetimes become textual timestamps, everything else is
written through unchanged. -/
def convertValue : Value → Value
  | .vOid o => .vStr (oidString o)
  | .vDate d => .vStr (isoString d)
  | v => v

/-- The Exporter's per-document conversion (applied field by field). -/
def convertDoc (d : Doc) : Doc := d.map (fun p => (p.1, convertValue p.2))

/-- One iteration of the Exporter's loop: fetch collection `c`, convert every
document, and write the JSON file, catching fetch/write failures per
collection. -/
def exportColl (env : Op → Bool) (c : String) :
    W × List (String × List Doc) → W × List (String × List Doc)
  | (w, files) =>
    let w := w.att (.findAll c)
    if env (.findAll c) then (w.warn (.findAll c), files)
    else
      let docs := (w.db.docs c).map convertDoc
      let w := w.att (.writeFile c)
      if env (.writeFile c) then (w.warn (.writeFile c), files)
      else (w, files.append [(String.append "data/" (String.append c "_sample.json"), docs)])

/-- `export_sample_json`: `os.makedirs` runs outside any try block (fatal on
failure); then each collection is exported in turn by `exportColl`. -/
def export_sample_json (env : Op → Bool) (w : W) :
    Except W (W × List (String × List Doc)) :=
  let w := w.att .makedirs
  if env .makedirs then .error w
  else .ok (["autori", "libri", "utenti", "prestiti"].foldl
    (fun s c => exportColl env c s) (w, []))

/-- The outcome of one whole run: final state, the counts and aggregation the
Validator reported (when reached), the JSON files written, and the process
exit code (0 normal; 1 when an uncaught exception reaches `main`). -/
structure RunResult where
  w : W
  counts : Option (List (String × Nat))
  agg : Option (List Doc)
  files : List (String × List Doc)
  exitCode : Nat
deriving DecidableEq, Repr

/-- `run_complete_setup` wrapped in `main`'s top-level handler: the five
stages run in sequence unconditionally; only an uncaught exception (from the
Validator's count phase or the Exporter's makedirs) aborts the remaining
stages and exits non-zero. -/
def run_complete_setup (env : Op → Bool) (reset : Bool) (db0 : DB) : RunResult :=
  let w0 : W := ⟨db0, [], []⟩
  let w1 := if reset then dropStage env w0 else w0
  let w2 := create_collections env w1
  let w3 := create_indexes env w2
  let w4 := load_sample_data env w3
  match validate_setup env w4 with
  | .error w5 => ⟨w5, none, none, [], 1⟩
  | .ok (w5, counts, agg) =>
    match export_sample_json env w5 with
    | .error w6 => ⟨w6, some counts, agg, [], 1⟩
    | .ok (w6, files) => ⟨w6, some counts, agg, files, 0⟩

/-- The environment with no external driver failures. -/
def noFail : Op → Bool := fun _ => false

/-- The result of a full setup run against an initially empty database, with
no external driver failures. -/
def runFromEmpty : RunResult := run_complete_setup noFail false DB.empty

/-- The result of running the setup a second time, without reset, against the
store left by the first run. -/
def secondRun : RunResult := run_complete_setup noFail false runFromEmpty.w.db

/-- Field lookup of the exporter's output agrees with converting the source
document's field. -/
theorem get_convertDoc (d : Doc) (k : String) :
    (convertDoc d).get k = (d.get k).map convertValue := by
  induction d with
  | nil => rfl
  | cons p ps ih =>
    simp only [convertDoc, Doc.get, List.map_cons, List.find?]
    by_cases h : p.1 == k
    · simp [h]
    · simp only [h] at *
      simpa [convertDoc, Doc.get] using ih

/-- The exporter's conversion never outputs a generated-identifier value. -/
theorem isOid_convertValue (v : Value) : isOid (convertValue v) = false := by
  cases v <;> rfl

/-- The exporter's conversion never outputs a datetime value. -/
theorem isDate_convertValue (v : Value) : isDate (convertValue v) = false := by
  cases v <;> rfl

/-- Every file accumulated by the exporter's loop holds converted documents. -/
theorem export_foldl_files (env : Op → Bool) :
    ∀ (l : List String) (s : W × List (String × List Doc)) (f : String × List Doc),
      f ∈ (l.foldl (fun s c => exportColl env c s) s).2 →
      f ∈ s.2 ∨ ∃ ds : List Doc, f.2 = ds.map convertDoc := by
  intro l
  induction l with
  | nil => intro s f hf; exact .inl hf
  | cons c cs ih =>
    intro s f hf
    rcases ih (exportColl env c s) f hf with h | h
    · unfold exportColl at h
      rcases s with ⟨w, files⟩
      by_cases h1 : env (.findAll c)
      · simp [h1] at h
        exact .inl h
      · by_cases h2 : env (.writeFile c)
        · simp [h1, h2] at h
          exact .inl h
        · simp [h1, h2] at h
          rcases h with h | h
          · exact .inl h
          · exact .inr ⟨(W.att w (Op.findAll c)).db.docs c, by rw [h]⟩
    · exact .inr h

/-- Every file the export stage reports as written holds converted documents. -/
theorem export_ok_files (env : Op → Bool) (w w2 : W) (files : List (String × List Doc))
    (he : export_sample_json env w = .ok (w2, files))
    (f : String × List Doc) (hf : f ∈ files) :
    ∃ ds : List Doc, f.2 = ds.map convertDoc := by
  unfold export_sample_json at he
  dsimp only at he
  by_cases hm : env .makedirs
  · simp [hm] at he
  · simp only [hm, Bool.false_eq_true, if_false] at he
    have h2 := congrArg Prod.snd (Except.ok.inj he)
    dsimp only at h2
    rw [← h2] at hf
    rcases export_foldl_files env _ _ f hf with h | h
    · simp at h
    · exact h

/-- In a list of documents with pairwise distinct `_id` values, a resolvable
key is matched by exactly one document. -/
theorem filter_id_singleton (y : Option Value) :
    ∀ (l : List Doc), (l.map (fun a => Doc.get a "_id")).Nodup →
      (∃ a ∈ l, Doc.get a "_id" = y) →
      (l.filter (fun a => Doc.get a "_id" == y)).length = 1 := by
  intro l
  induction l with
  | nil => intro _ h; simp at h
  | cons x xs ih =>
    intro hnd hex
    rw [List.map_cons, List.nodup_cons] at hnd
    by_cases hx : Doc.get x "_id" = y
    · have hnone : xs.filter (fun a => Doc.get a "_id" == y) = [] := by
        rw [List.filter_eq_nil_iff]
        intro a ha hcon
        exact hnd.1 (hx ▸ (beq_iff_eq.mp hcon) ▸
          List.mem_map_of_mem (fun a => Doc.get a "_id") ha)
      simp [List.filter_cons, hx, hnone]
    · have hxs : ∃ a ∈ xs, Doc.get a "_id" = y := by
        rcases hex with ⟨a, ha, hay⟩
        rcases List.mem_cons.mp ha with rfl | ha2
        · exact absurd hay hx
        · exact ⟨a, ha2, hay⟩
      have hlen := ih hnd.2 hxs
      simpa [List.filter_cons, hx] using hlen

/-- Claim C1: a full setup run against an initially empty database inserts
exactly 3 authors, 3 books, 3 patrons and 2 loans, and the per-collection
counts the Validator reports are (autori: 3, libri: 3, utenti: 3,
prestiti: 2). -/
theorem claim1_full_setup_counts :
    runFromEmpty.counts =
      some [("autori", 3), ("libri", 3), ("utenti", 3), ("prestiti", 2)] ∧
    runFromEmpty.w.db.autori.length = 3 ∧
    runFromEmpty.w.db.libri.length = 3 ∧
    runFromEmpty.w.db.utenti.length = 3 ∧
    runFromEmpty.w.db.prestiti.length = 2 :=
  ⟨rfl, rfl, rfl, rfl, rfl⟩

/-- Claim C2: every document written by the Exporter is the field-wise
conversion of a stored document in which every generated-identifier value
(including foreign references) has been replaced by its canonical string form,
every datetime value by its textual timestamp, and null fields stay null; in
particular no exported document contains a raw identifier or date value. -/
theorem claim2_export_normalized (env : Op → Bool) (reset : Bool) (db : DB)
    (f : String × List Doc) (hf : f ∈ (run_complete_setup env reset db).files)
    (d : Doc) (hd : d ∈ f.2) :
    (∃ d0 : Doc, d = convertDoc d0 ∧
      (∀ k o, d0.get k = some (Value.vOid o) → d.get k = some (Value.vStr (oidString o))) ∧
      (∀ k dt, d0.get k = some (Value.vDate dt) → d.get k = some (Value.vStr (isoString dt))) ∧
      (∀ k, d0.get k = some Value.vNull → d.get k = some Value.vNull)) ∧
    (∀ p ∈ d, isOid p.2 = false ∧ isDate p.2 = false) := by
  have hfile : ∃ ds : List Doc, f.2 = ds.map convertDoc := by
    unfold run_complete_setup at hf
    dsimp only at hf
    split at hf
    · simp at hf
    · split at hf
      · simp at hf
      · rename_i he
        exact export_ok_files env _ _ _ he f hf
  rcases hfile with ⟨ds, hds⟩
  rw [hds] at hd
  rcases List.mem_map.mp hd with ⟨d0, hd0, hconv⟩
  constructor
  · refine ⟨d0, hconv.symm, ?_, ?_, ?_⟩
    · intro k o hk
      rw [← hconv, get_convertDoc, hk]; rfl
    · intro k dt hk
      rw [← hconv, get_convertDoc, hk]; rfl
    · intro k hk
      rw [← hconv, get_convertDoc, hk]; rfl
  · intro p hp
    rw [← hconv] at hp
    rcases List.mem_map.mp hp with ⟨q, _, hq⟩
    rw [← hq]
    exact ⟨isOid_convertValue q.2, isDate_convertValue q.2⟩

/-- The authors file written by the clean run's Exporter. -/
def autoriExportFile : String × List Doc :=
  ("data/autori_sample.json", runFromEmpty.w.db.autori.map convertDoc)

/-- The first document of the exported authors file. -/
def firstExportedAutore : Doc := convertDoc (runFromEmpty.w.db.autori.getD 0 [])

/-- Witness for claim C2, at the first document of the authors file written by
the clean run. -/
theorem claim2_export_normalized_witness :
    (∃ d0 : Doc, firstExportedAutore = convertDoc d0 ∧
      (∀ k o, d0.get k = some (Value.vOid o) →
        firstExportedAutore.get k = some (Value.vStr (oidString o))) ∧
      (∀ k dt, d0.get k = some (Value.vDate dt) →
        firstExportedAutore.get k = some (Value.vStr (isoString dt))) ∧
      (∀ k, d0.get k = some Value.vNull → firstExportedAutore.get k = some Value.vNull)) ∧
    (∀ p ∈ firstExportedAutore, isOid p.2 = false ∧ isDate p.2 = false) :=
  claim2_export_normalized noFail false DB.empty autoriExportFile (by decide)
    firstExportedAutore (by decide)

/-- Counterexample to claim C3: on the second run the loans batch contains no
unique-key conflict at all (loans carry no unique index), yet its insert is
never even attempted — the books batch's duplicate-key failure aborts the
whole ordered batch and `load_sample_data` returns, halting the seeding stage;
the patrons insert is skipped too, and the loan count stays 2. -/
theorem claim3_counterexample :
    Op.insert "prestiti" ∉ secondRun.w.trace ∧
    Op.insert "utenti" ∉ secondRun.w.trace ∧
    secondRun.w.db.prestiti.length = 2 ∧
    secondRun.w.db.utenti.length = 3 := by
  exact ⟨by decide, by decide, rfl, rfl⟩

/-- Claim C3 as amended: a second run without reset does not crash (exit code
0) and does not duplicate any unique-constrained record (books and patrons
stay at 3), but the first duplicate unique key aborts the whole ordered batch
and the seeding function returns at once, skipping every later seed stage
instead of failing per-record; authors, which carry no unique constraint, are
duplicated to 6. -/
theorem claim3_amended :
    secondRun.exitCode = 0 ∧
    secondRun.w.db.libri.length = 3 ∧
    secondRun.w.db.utenti.length = 3 ∧
    secondRun.w.db.autori.length = 6 ∧
    Op.insert "libri" ∈ secondRun.w.warns ∧
    Op.insert "utenti" ∉ secondRun.w.trace ∧
    Op.insert "prestiti" ∉ secondRun.w.trace := by
  exact ⟨rfl, rfl, rfl, rfl, by decide, by decide, by decide⟩

/-- Claim C4: whichever seed batch fails — authors (scenario A, here a driver
failure), books (scenario B, here a per-batch insert error), or patrons
(scenario U) — `load_sample_data` stops there: the failure is reported as a
warning, no later batch is attempted (the trace gains only the attempted
inserts), and the store keeps exactly the records inserted before the failure,
with no rollback. -/
theorem claim4_failed_stage_skips_dependents
    (envA envB envU : Op → Bool) (wA wB wU : W)
    (dbB1 dbB2 dbU1 dbU2 : DB) (idsB idsU lidsU : List OId) (eB : InsErr)
    (hA : envA (Op.insert "autori") = true)
    (hB0 : envB (Op.insert "autori") = false)
    (hB1 : insertMany wB.db "autori" autoriData = (dbB1, Except.ok idsB))
    (hB2 : envB (Op.insert "libri") = false)
    (hB3 : insertMany dbB1 "libri" (libriData idsB) = (dbB2, Except.error eB))
    (hU0 : envU (Op.insert "autori") = false)
    (hU1 : insertMany wU.db "autori" autoriData = (dbU1, Except.ok idsU))
    (hU2 : envU (Op.insert "libri") = false)
    (hU3 : insertMany dbU1 "libri" (libriData idsU) = (dbU2, Except.ok lidsU))
    (hU4 : envU (Op.insert "utenti") = true) :
    load_sample_data envA wA =
      ⟨wA.db, wA.trace ++ [Op.insert "autori"], wA.warns ++ [Op.insert "autori"]⟩ ∧
    load_sample_data envB wB =
      ⟨dbB2, wB.trace ++ [Op.insert "autori", Op.insert "libri"],
        wB.warns ++ [Op.insert "libri"]⟩ ∧
    load_sample_data envU wU =
      ⟨dbU2, wU.trace ++ [Op.insert "autori", Op.insert "libri", Op.insert "utenti"],
        wU.warns ++ [Op.insert "utenti"]⟩ := by
  refine ⟨?_, ?_, ?_⟩
  · unfold load_sample_data
    simp [hA, W.att, W.warn]
  · unfold load_sample_data
    simp [hB0, hB1, hB2, hB3, W.att, W.warn]
  · unfold load_sample_data
    simp [hU0, hU1, hU2, hU3, hU4, W.att, W.warn]

/-- The environment in which only the authors batch insert raises. -/
def envFailAutori : Op → Bool := fun o => o == Op.insert "autori"

/-- The environment in which only the patrons batch insert raises. -/
def envFailUtenti : Op → Bool := fun o => o == Op.insert "utenti"

/-- The seeding entry state over an empty store. -/
def wEmpty : W := ⟨DB.empty, [], []⟩

/-- The seeding entry state over the store left by a full first run. -/
def wSeeded : W := ⟨runFromEmpty.w.db, [], []⟩

/-- The store after re-inserting the authors batch into the seeded store. -/
def dbReAutori : DB := (insertMany wSeeded.db "autori" autoriData).1

/-- The store after the authors batch over an empty store. -/
def dbAutoriOnly : DB := (insertMany wEmpty.db "autori" autoriData).1

/-- The store after the authors and books batches over an empty store. -/
def dbAutoriLibri : DB := (insertMany dbAutoriOnly "libri" (libriData [0, 1, 2])).1

/-- Witness for claim C4: scenario A over an empty store with a failing
authors insert, scenario B over an already-seeded store where the books batch
hits its duplicate key, scenario U over an empty store with a failing patrons
insert. -/
theorem claim4_failed_stage_skips_dependents_witness :
    load_sample_data envFailAutori wEmpty =
      ⟨wEmpty.db, wEmpty.trace ++ [Op.insert "autori"], wEmpty.warns ++ [Op.insert "autori"]⟩ ∧
    load_sample_data noFail wSeeded =
      ⟨dbReAutori, wSeeded.trace ++ [Op.insert "autori", Op.insert "libri"],
        wSeeded.warns ++ [Op.insert "libri"]⟩ ∧
    load_sample_data envFailUtenti wEmpty =
      ⟨dbAutoriLibri, wEmpty.trace ++ [Op.insert "autori", Op.insert "libri", Op.insert "utenti"],
        wEmpty.warns ++ [Op.insert "utenti"]⟩ :=
  claim4_failed_stage_skips_dependents envFailAutori noFail envFailUtenti
    wEmpty wSeeded wEmpty dbReAutori dbReAutori dbAutoriOnly dbAutoriLibri
    [11, 12, 13] [0, 1, 2] [3, 4, 5] InsErr.duplicateKey
    (by decide) rfl rfl rfl rfl rfl rfl rfl rfl (by decide)

/-- The environment in which only the `autori` count fails. -/
def envFailCount : Op → Bool := fun o => o == Op.count "autori"

/-- Counterexample to claim C5: the Validator's per-collection counts run
outside any try block, so a failure there is not caught as a warning — it
propagates to the top level, the Exporter never runs (no files are written),
and the process exits non-zero. -/
theorem claim5_counterexample :
    (run_complete_setup envFailCount false DB.empty).exitCode = 1 ∧
    (run_complete_setup envFailCount false DB.empty).files = [] ∧
    Op.count "autori" ∈ (run_complete_setup envFailCount false DB.empty).w.trace ∧
    Op.count "autori" ∉ (run_complete_setup envFailCount false DB.empty).w.warns := by
  exact ⟨rfl, rfl, by decide, by decide⟩

/-- The environment in which only the aggregation query fails. -/
def envFailAgg : Op → Bool := fun o => o == Op.aggregate

/-- The environment in which every collection creation fails. -/
def envFailCreate : Op → Bool := fun o =>
  match o with
  | .createColl _ => true
  | _ => false

/-- The environment in which the first index creation fails. -/
def envFailIdx : Op → Bool := fun o =>
  o == Op.createIdx ⟨"autori", [("nome", .asc), ("cognome", .asc)], false⟩

/-- The environment in which fetching `autori` for export fails. -/
def envFailFind : Op → Bool := fun o => o == Op.findAll "autori"

/-- Claim C5 as amended: failures of schema creation, index building, seed
batches, the validation aggregation, and per-collection export are caught and
reported as warnings and the pipeline proceeds to completion with exit code 0
— in particular an aggregation failure inside the Validator does not prevent
the Exporter from writing all four files; but a failure of the Validator's
count phase (outside any handler) is fatal, per the counterexample. -/
theorem claim5_amended :
    (run_complete_setup envFailAgg false DB.empty).exitCode = 0 ∧
    (run_complete_setup envFailAgg false DB.empty).files.length = 4 ∧
    (run_complete_setup envFailAgg false DB.empty).w.warns = [Op.aggregate] ∧
    (run_complete_setup envFailCreate false DB.empty).exitCode = 0 ∧
    (run_complete_setup envFailCreate false DB.empty).files.length = 4 ∧
    (run_complete_setup envFailIdx false DB.empty).exitCode = 0 ∧
    (run_complete_setup envFailIdx false DB.empty).files.length = 4 ∧
    (run_complete_setup envFailFind false DB.empty).exitCode = 0 ∧
    (run_complete_setup envFailFind false DB.empty).files.length = 3 := by
  exact ⟨rfl, rfl, rfl, rfl, rfl, rfl, rfl, rfl, rfl⟩

/-- Claim C6: when every book's author reference resolves to an existing
author (authors having pairwise distinct generated ids, as the `_id` primary
key guarantees), the Validator's lookup-unwind-project aggregation returns
exactly one row per book, so its result count equals the book count. -/
theorem claim6_aggregation_count (libri autori : List Doc)
    (hnd : (autori.map (fun a => a.get "_id")).Nodup)
    (hres : ∀ b ∈ libri, ∃ a ∈ autori, a.get "_id" = b.get "autore_id") :
    (libriConAutori libri autori).length = libri.length := by
  induction libri with
  | nil => rfl
  | cons b bs ih =>
    have h1 : (autori.filter (fun a => a.get "_id" == b.get "autore_id")).length = 1 :=
      filter_id_singleton (b.get "autore_id") autori hnd (hres b (List.mem_cons_self b bs))
    have h2 := ih (fun b hb => hres b (List.mem_cons_of_mem _ hb))
    simp only [libriConAutori] at *
    rw [List.flatMap_cons, List.length_append, List.length_map, h1, h2, Nat.add_comm]
    rfl

/-- Witness for claim C6, on the books and authors stored by the clean run. -/
theorem claim6_aggregation_count_witness :
    (libriConAutori runFromEmpty.w.db.libri runFromEmpty.w.db.autori).length =
      runFromEmpty.w.db.libri.length :=
  claim6_aggregation_count runFromEmpty.w.db.libri runFromEmpty.w.db.autori
    (by decide) (by decide)

/-- A book document whose identifier code contains letters. -/
def badIsbnBook : Doc :=
  [ ("titolo", .vStr "Libro Finto"), ("autore_id", .vOid 0),
    ("isbn", .vStr "ABC-NOT-AN-ISBN"), ("anno_pubblicazione", .vInt 2000),
    ("copie_totali", .vInt 1), ("copie_disponibili", .vInt 1) ]

/-- Claim C7: inserting into the schema-validated `libri` collection any book
whose identifier code fails the digits-and-hyphens length-10-to-17 pattern is
rejected at insert time by schema validation. -/
theorem claim7_bad_isbn_rejected (db : DB) (d : Doc) (s : String)
    (hv : db.validated.contains "libri" = true)
    (hget : d.get "isbn" = some (Value.vStr s))
    (hpat : isbnPattern s = false) :
    insertOne db "libri" d = .error .validation := by
  have hval : libriValidator d = false := by
    simp [libriValidator, propOk, hget, isStrPat, hpat]
  have hfor : validatorFor "libri" d = false := by
    rw [validatorFor]
    norm_num
    exact hval
  have hcond : (db.validated.contains "libri" && !(validatorFor "libri" d)) = true := by
    rw [hv, hfor]; rfl
  unfold insertOne
  rw [hcond]
  simp

/-- Witness for claim C7: a book with a letter-bearing identifier code is
rejected when inserted into the store produced by the clean run. -/
theorem claim7_bad_isbn_rejected_witness :
    insertOne runFromEmpty.w.db "libri" badIsbnBook = .error .validation :=
  claim7_bad_isbn_rejected runFromEmpty.w.db badIsbnBook "ABC-NOT-AN-ISBN"
    (by decide) rfl (by decide)

/-- Claim C8: exactly three unique indexes are declared — on the book
identifier code `isbn`, on patron `email`, and on the patron national
identifier `codice_fiscale`; every other declared index is non-unique. -/
theorem claim8_unique_indexes :
    indexList.filter (fun i => i.unique) =
      [ ⟨"libri", [("isbn", .asc)], true⟩,
        ⟨"utenti", [("email", .asc)], true⟩,
        ⟨"utenti", [("codice_fiscale", .asc)], true⟩ ] := rfl

/-- A book document with more available copies than total copies, otherwise
schema-conformant and with a fresh identifier code. -/
def copiesViolatingBook : Doc :=
  [ ("titolo", .vStr "Copie Impossibili"), ("autore_id", .vOid 0),
    ("isbn", .vStr "123-45-67-89012-3"), ("anno_pubblicazione", .vInt 2001),
    ("copie_totali", .vInt 1), ("copie_disponibili", .vInt 10) ]

/-- Claim C9: every book in the seeded store satisfies the unenforced
invariant that its available-copy count is at most its total-copy count; yet
nothing enforces it — a book violating the invariant passes the schema
validator and is accepted by an insert into the seeded store. -/
theorem claim9_copies_invariant :
    runFromEmpty.w.db.libri.all (fun d =>
      match d.get "copie_disponibili", d.get "copie_totali" with
      | some (.vInt a), some (.vInt t) => decide (a ≤ t)
      | _, _ => false) = true ∧
    libriValidator copiesViolatingBook = true ∧
    (insertOne runFromEmpty.w.db "libri" copiesViolatingBook).isOk = true := by
  exact ⟨rfl, rfl, rfl⟩

/-- Claim C10: every seeded loan references a patron and a book stored in the
same run, and its denormalized snapshot fields equal the referenced patron's
concatenated first and last name and email. -/
theorem claim10_loan_snapshots :
    runFromEmpty.w.db.prestiti.all (fun p =>
      runFromEmpty.w.db.utenti.any (fun u =>
        u.get "_id" == p.get "utente_id" &&
        (match u.get "nome", u.get "cognome" with
         | some (.vStr n), some (.vStr c) =>
             p.get "utente_nome" == some (.vStr (String.append n (String.append " " c)))
         | _, _ => false) &&
        p.get "utente_email" == u.get "email") &&
      runFromEmpty.w.db.libri.any (fun b =>
        b.get "_id" == p.get "libro_id")) = true := by
  exact rfl
